import Mathlib

/-!
Shallow embedding of the authentication / session-lifecycle core of the
`go_api_nosql` backend (packages `internal/application/session`,
`internal/application/auth`, `internal/pkg/device`,
`internal/infrastructure/dynamo`), together with theorems settling the
spec claims about it.

Conventions of the embedding:
* Go errors carrying a wrapped sentinel (`fmt.Errorf("...: %w", domain.ErrX)`)
  become an `AppError` value holding the rendered message and the sentinel;
  `errors.Is(err, domain.ErrX)` becomes `errIs e .x`.
* The DynamoDB-backed stores become pure functions over lists of records;
  a store lookup miss becomes the same wrapped error the Go repo returns.
* Nondeterministic inputs of a call (current time, freshly generated random
  identifiers and tokens) are passed in explicitly as arguments.
* The bcrypt comparison and the JWT signer are abstract collaborators of the
  session service, so they are passed in as function arguments.
-/

namespace GoApi

/-- Sentinel errors of `internal/domain` (part `domain/errors`):
`ErrNotFound`, `ErrConflict`, `ErrUnauthorized`, `ErrForbidden`,
`ErrBadRequest`. -/
inductive DomainErr
  | notFound
  | conflict
  | unauthorized
  | forbidden
  | badRequest
deriving DecidableEq, Repr

/-- The `errors.New` message of each sentinel. -/
def DomainErr.text : DomainErr → String
  | .notFound => "not found"
  | .conflict => "conflict"
  | .unauthorized => "unauthorized"
  | .forbidden => "forbidden"
  | .badRequest => "bad request"

/-- A Go error value as observed by callers: its rendered `Error()` string and
the sentinel it wraps, if any (`none` models a bare `errors.New`). -/
structure AppError where
  msg : String
  base : Option DomainErr
deriving DecidableEq, Repr

/-- `fmt.Errorf(pfx ++ ": %w", sentinel)`. -/
def wrapErr (pfx : String) (e : DomainErr) : AppError :=
  { msg := pfx ++ ": " ++ e.text, base := some e }

/-- `errors.Is(err, sentinel)` for the single-level wrapping used throughout
the services. -/
def errIs (e : AppError) (d : DomainErr) : Bool :=
  e.base = some d

/-- `domain.User` (src/internal/domain/user.go), fields relevant to the
session/auth services. `enable` is a Go `int` (1 = enabled, 0 = disabled). -/
structure User where
  userID : String
  username : String
  email : String
  phone : Option String
  passwordHash : String
  role : String
  firstName : String
  lastName : String
  verified : Bool
  emailConfirmed : Bool
  phoneConfirmed : Bool
  authProvider : String
  googleSub : String
  enable : Int
deriving DecidableEq, Repr

/-- `domain.Session` as used by `session.Service` and `dynamo.SessionRepo`:
session id, user id, device id, enable flag, opaque refresh token and its
absolute expiry (Unix seconds). Timestamps carried as Unix seconds. -/
structure Session where
  sessionID : String
  userID : String
  deviceID : String
  enable : Bool
  refreshToken : String
  refreshExpiresAt : Int
  createdAt : Int
  updatedAt : Int
deriving DecidableEq, Repr

/-- `domain.Device` (src/internal/domain/device.go). -/
structure Device where
  deviceID : String
  uuid : String
  userID : String
  token : Option String
  appVersionID : String
  enable : Bool
  createdAt : Int
  updatedAt : Int
deriving DecidableEq, Repr

/-- `domain.UserVerification`: keyed by (user id, code type), holding the code
value and an absolute expiry (Unix seconds). -/
structure Verification where
  userID : String
  vtype : String
  code : String
  expiresAt : Int
deriving DecidableEq, Repr

/-! ## Device store and resolver (`dynamo/devices.go`, `pkg/device/device.go`) -/

/-- `DeviceRepo.GetByUUID`: query the `device_uuid-index` with `Limit 1`;
an empty result is `"device not found: %w" domain.ErrNotFound`. -/
def devGetByUUID (devices : List Device) (uuid : String) : Except AppError Device :=
  match devices.find? (fun d => d.uuid = uuid) with
  | some d => .ok d
  | none => .error (wrapErr "device not found" .notFound)

/-- `DeviceRepo.Put`: persist a new device row (fresh `device_id` key). -/
def devPut (devices : List Device) (d : Device) : List Device :=
  devices ++ [d]

/-- `device.Resolve` (src/internal/pkg/device/device.go): look the device up
by UUID when one is supplied; on a not-found miss (or no UUID) mint a new
device with the injected fresh id (and fresh UUID when none was supplied) and
persist it enabled; any lookup failure other than not-found propagates.
Returns the result together with the resulting device store. -/
def Resolve (devices : List Device) (deviceUUID : Option String) (userID : String)
    (freshID freshUUID : String) (now : Int) :
    Except AppError Device × List Device :=
  let create : Except AppError Device × List Device :=
    let devUUID := match deviceUUID with
      | some u => u
      | none => freshUUID
    let d : Device :=
      { deviceID := freshID, uuid := devUUID, userID := userID, token := none,
        appVersionID := "", enable := true, createdAt := now, updatedAt := now }
    (.ok d, devPut devices d)
  match deviceUUID with
  | some uuid =>
    match devGetByUUID devices uuid with
    | .ok d => (.ok d, devices)
    | .error e => if ¬ errIs e .notFound then (.error e, devices) else create
  | none => create

/-! ## OTP and token generation (`auth/service.go`) -/

/-- The restricted OTP alphabet of `generateOTP`: uppercase alphanumerics
excluding the visually ambiguous glyphs 0, 1, I, L, O. -/
def otpChars : String := "23456789ABCDEFGHJKMNPQRSTUVWXYZ"

/-- `generateOTP`: builds a 6-byte string, each byte an independently drawn
character of `otpChars` (the random draw `rand.Int(rand.Reader, len(chars))`
is injected as `picks`). -/
def generateOTP (picks : Fin 6 → Fin otpChars.length) : String :=
  String.mk ((List.finRange 6).map (fun i => otpChars.data.get (picks i)))

/-- The full alphanumeric alphabet of `generateToken` (email-confirmation
link tokens). -/
def tokenChars : String :=
  "abcdefghijklmnopqrstuvwxyzABCDEFGHIJKLMNOPQRSTUVWXYZ0123456789"

/-! ## User store (the `userStore` interface of the services)

The services program against a `userStore` interface whose contract — shared
by the spec's Identity Store and by every store double in the service test
suites — reports a missing row as an error wrapping `domain.ErrNotFound`
and an existing row as-is. Lookups by username/email model the
single-item GSI queries of `dynamo.UserRepo`. -/

def userGetByUsername (users : List User) (username : String) : Except AppError User :=
  match users.find? (fun u => u.username = username) with
  | some u => .ok u
  | none => .error (wrapErr "user not found" .notFound)

def userGetByEmail (users : List User) (email : String) : Except AppError User :=
  match users.find? (fun u => u.email = email) with
  | some u => .ok u
  | none => .error (wrapErr "user not found" .notFound)

def userGet (users : List User) (userID : String) : Except AppError User :=
  match users.find? (fun u => u.userID = userID) with
  | some u => .ok u
  | none => .error (wrapErr "user not found" .notFound)

/-- `userStore.Put`: persist a new user row (fresh `user_id` key). -/
def userPut (users : List User) (u : User) : List User :=
  users ++ [u]

/-! ## Session store (`dynamo/sessions.go`) -/

/-- `SessionRepo.GetByRefreshToken`: query the `refresh_token-index`; an empty
result is `"session not found: %w" ErrNotFound`; a hit on a disabled session
is `"session disabled: %w" ErrUnauthorized`. -/
def sessGetByRefreshToken (sessions : List Session) (tok : String) :
    Except AppError Session :=
  match sessions.find? (fun s => s.refreshToken = tok) with
  | none => .error (wrapErr "session not found" .notFound)
  | some s =>
    if ¬ s.enable then .error (wrapErr "session disabled" .unauthorized)
    else .ok s

/-- `SessionRepo.Put`. -/
def sessPut (sessions : List Session) (s : Session) : List Session :=
  sessions ++ [s]

/-- `SessionRepo.RotateRefreshToken`: an `UpdateItem` on the `session_id` key
replacing `refresh_token`, `refresh_expires_at` and `updated_at`. -/
def rotateRefreshToken (sessions : List Session) (sessionID newToken : String)
    (newExpiry now : Int) : List Session :=
  sessions.map (fun s =>
    if s.sessionID = sessionID then
      { s with refreshToken := newToken, refreshExpiresAt := newExpiry,
               updatedAt := now }
    else s)

/-! ## Verification store (`dynamo/verifications.go`) -/

/-- `VerificationRepo.Get`: `GetItem` on the composite key (user_id, type);
a miss is `"verification not found: %w" ErrNotFound`. -/
def verGet (vs : List Verification) (userID vtype : String) :
    Except AppError Verification :=
  match vs.find? (fun v => v.userID = userID ∧ v.vtype = vtype) with
  | some v => .ok v
  | none => .error (wrapErr "verification not found" .notFound)

/-- `VerificationRepo.Put`: `PutItem` overwrites the row with the same
composite key (at most one outstanding code per user and type). -/
def verPut (vs : List Verification) (v : Verification) : List Verification :=
  vs.filter (fun w => ¬ (w.userID = v.userID ∧ w.vtype = v.vtype)) ++ [v]

/-- `VerificationRepo.Delete`: `DeleteItem` on the composite key. -/
def verDelete (vs : List Verification) (userID vtype : String) :
    List Verification :=
  vs.filter (fun v => ¬ (v.userID = userID ∧ v.vtype = vtype))

/-! ## Shared service state and injected call inputs -/

/-- The persistent state every service call reads and writes: the four
record stores. -/
structure AppState where
  users : List User
  sessions : List Session
  devices : List Device
  verifications : List Verification
deriving DecidableEq, Repr

/-- The nondeterministic inputs of one service call, passed explicitly:
the current time and the freshly generated random identifiers/tokens
(`id.New()`, `token.NewRefreshToken()`). -/
structure Fresh where
  now : Int
  userID : String
  sessionID : String
  deviceID : String
  deviceUUID : String
  refreshToken : String
deriving DecidableEq, Repr

/-- The `jwtSigner.Sign(userID, deviceID, role, sessionID)` collaborator. -/
def Signer := String → String → String → String → Except AppError String

/-- Result triple of `Login` / `LoginWithGoogle` / `ValidateOTP`:
bearer, refresh token, created session (with its attached user snapshot
represented separately). -/
structure LoginResult where
  bearer : String
  refreshToken : String
  session : Session
  user : User
deriving DecidableEq, Repr

/-- The session-minting block inlined identically in `Login`,
`LoginWithGoogle` and `ValidateOTP`: resolve the device, take a fresh
refresh token, persist a fresh enabled session with
`refresh_expires_at = now + refreshTokenDur`, sign a bearer embedding the
session id, and attach the user snapshot. -/
def mintSession (sign : Signer) (dur : Int) (st : AppState) (u : User)
    (deviceUUID : Option String) (f : Fresh) :
    Except AppError LoginResult × AppState :=
  match Resolve st.devices deviceUUID u.userID f.deviceID f.deviceUUID f.now with
  | (.error e, devs) => (.error e, { st with devices := devs })
  | (.ok dev, devs) =>
    let st := { st with devices := devs }
    let sess : Session :=
      { sessionID := f.sessionID, userID := u.userID, deviceID := dev.deviceID,
        enable := true, refreshToken := f.refreshToken,
        refreshExpiresAt := f.now + dur, createdAt := f.now, updatedAt := f.now }
    let st := { st with sessions := sessPut st.sessions sess }
    match sign u.userID dev.deviceID u.role sess.sessionID with
    | .error e => (.error e, st)
    | .ok bearer =>
      (.ok { bearer := bearer, refreshToken := f.refreshToken,
             session := sess, user := u }, st)

/-! ## Session service (`application/session/service.go`) -/

/-- `service.Login`: look the user up by username then by email, collapsing
both misses into `"invalid credentials" ErrUnauthorized`; reject a disabled
account (`"account disabled"`) and a bcrypt mismatch
(`"invalid credentials"`) the same sentinel; then mint a session.
`pwMatch hash password` stands for a succeeding
`bcrypt.CompareHashAndPassword`. -/
def Login (sign : Signer) (pwMatch : String → String → Bool) (dur : Int)
    (st : AppState) (username password : String) (deviceUUID : Option String)
    (f : Fresh) : Except AppError LoginResult × AppState :=
  let cont (u : User) : Except AppError LoginResult × AppState :=
    if u.enable = 0 then
      (.error (wrapErr "account disabled" .unauthorized), st)
    else if ¬ pwMatch u.passwordHash password then
      (.error (wrapErr "invalid credentials" .unauthorized), st)
    else
      mintSession sign dur st u deviceUUID f
  match userGetByUsername st.users username with
  | .ok u => cont u
  | .error _ =>
    match userGetByEmail st.users username with
    | .ok u => cont u
    | .error _ => (.error (wrapErr "invalid credentials" .unauthorized), st)

/-- `service.Refresh`: look the session up by refresh token, collapsing any
lookup failure into `"invalid or expired refresh token" ErrUnauthorized`;
reject a past refresh expiry; rotate token and expiry via
`RotateRefreshToken`; re-sign a bearer with the current role.
`newTok` is the injected `token.NewRefreshToken()` value. -/
def Refresh (sign : Signer) (dur : Int) (st : AppState) (tok : String)
    (now : Int) (newTok : String) :
    Except AppError (String × String) × AppState :=
  match sessGetByRefreshToken st.sessions tok with
  | .error _ =>
    (.error (wrapErr "invalid or expired refresh token" .unauthorized), st)
  | .ok sess =>
    if sess.refreshExpiresAt < now then
      (.error (wrapErr "refresh token expired" .unauthorized), st)
    else
      let st := { st with
        sessions := rotateRefreshToken st.sessions sess.sessionID newTok
          (now + dur) now }
      match userGet st.users sess.userID with
      | .error e =>
        if errIs e .notFound then
          (.error (wrapErr "user not found" .unauthorized), st)
        else (.error e, st)
      | .ok u =>
        match sign u.userID sess.deviceID u.role sess.sessionID with
        | .error e => (.error e, st)
        | .ok bearer => (.ok (bearer, newTok), st)

/-! ## Username derivation (`session/service.go`) -/

/-- `domain.RoleUser`. -/
def roleUser : String := "User"

/-- `domain.AuthProviderGoogle`. -/
def authProviderGoogle : String := "google"

/-- `strings.ToLower` (ASCII fragment: Lean's `Char.toLower` lowercases the
basic latin letters, which is the fragment exercised here). -/
def goToLower (s : String) : String :=
  String.mk (s.data.map Char.toLower)

/-- `sanitizeUsername`: lowercase the input and keep only letters, digits,
dots, underscores and hyphens (ASCII fragment of Go's
`unicode.IsLetter`/`unicode.IsDigit`). -/
def sanitizeUsername (s : String) : String :=
  String.mk ((goToLower s).data.filter
    (fun c => c.isAlpha || c.isDigit || c = '.' || c = '_' || c = '-'))

/-- The email local-part used by `deriveUsername`:
`strings.SplitN(email, "@", 2)[0]`, i.e. everything before the first "@"
(the whole string when there is none). -/
def emailLocalPart (email : String) : String :=
  String.mk (email.data.takeWhile (fun c => c ≠ '@'))

/-- The base candidate of `deriveUsername`: the sanitized email local-part,
or the literal "user" when sanitizing empties it. -/
def usernameBase (email : String) : String :=
  let base0 := sanitizeUsername (emailLocalPart email)
  if base0 = "" then "user" else base0

/-- The candidate-probing loop of `deriveUsername`: for each remaining suffix
`i`, a `GetByUsername` miss (ErrNotFound) settles the current candidate, any
other lookup error propagates, and a hit moves on to `base ++ toString i`.
The empty-suffix case is the final post-loop check: a miss settles `base99`,
anything else is the Conflict failure. -/
def deriveLoop (lookup : String → Except AppError User) (base : String) :
    List Nat → String → Except AppError String
  | [], candidate =>
    match lookup candidate with
    | .error e =>
      if errIs e .notFound then .ok candidate
      else .error (wrapErr
        ("unable to derive unique username from \"" ++ base ++ "\"") .conflict)
    | .ok _ => .error (wrapErr
        ("unable to derive unique username from \"" ++ base ++ "\"") .conflict)
  | i :: rest, candidate =>
    match lookup candidate with
    | .error e => if errIs e .notFound then .ok candidate else .error e
    | .ok _ => deriveLoop lookup base rest (base ++ toString i)

/-- `deriveUsername`: sanitize the email local-part
(`strings.SplitN(email, "@", 2)[0]`), fall back to the literal `"user"` when
sanitizing empties it, then probe `base, base1, …, base99` in order. -/
def deriveUsername (lookup : String → Except AppError User) (email : String) :
    Except AppError String :=
  let base := usernameBase email
  deriveLoop lookup base (List.range' 1 99) base

/-! ## OAuth login (`session/service.go`, `LoginWithGoogle`) -/

/-- `strings.TrimSpace`: strip leading and trailing whitespace. -/
def goTrimSpace (s : String) : String :=
  String.mk (((s.data.dropWhile Char.isWhitespace).reverse.dropWhile
    Char.isWhitespace).reverse)

/-- The verified external credential payload returned by the
`googleVerifier` collaborator. -/
structure GooglePayload where
  sub : String
  email : String
  emailVerified : Bool
  firstName : String
  lastName : String
deriving DecidableEq, Repr

/-- The partial update `LoginWithGoogle` issues to link a Google subject to
an existing account: set `google_sub` and `auth_provider` on the row. -/
def userLinkGoogle (users : List User) (userID sub : String) : List User :=
  users.map (fun u =>
    if u.userID = userID then
      { u with googleSub := sub, authProvider := authProviderGoogle }
    else u)

/-- `service.LoginWithGoogle`: verify the credential (result injected as
`payloadRes`); reject unverified/empty email and empty subject with
Unauthorized before touching any store; then find-or-create/link the local
user by email and mint a session exactly as `Login` does. A failing link
update is logged and swallowed (`updOk = false` leaves the store unchanged),
with the in-memory user linked either way. -/
def LoginWithGoogle (sign : Signer) (dur : Int) (st : AppState)
    (payloadRes : Except AppError GooglePayload) (deviceUUID : Option String)
    (f : Fresh) (updOk : Bool) : Except AppError LoginResult × AppState :=
  match payloadRes with
  | .error e => (.error e, st)
  | .ok p =>
    if ¬ p.emailVerified then
      (.error (wrapErr "google email not verified" .unauthorized), st)
    else if goTrimSpace p.email = "" then
      (.error (wrapErr "google email missing" .unauthorized), st)
    else if p.sub = "" then
      (.error (wrapErr "google subject missing" .unauthorized), st)
    else
      match userGetByEmail st.users p.email with
      | .error e =>
        if ¬ errIs e .notFound then (.error e, st)
        else
          match deriveUsername (userGetByUsername st.users) p.email with
          | .error e => (.error e, st)
          | .ok username =>
            let u : User :=
              { userID := f.userID, username := username, email := p.email,
                phone := none, passwordHash := "", role := roleUser,
                firstName := p.firstName, lastName := p.lastName,
                verified := true, emailConfirmed := true,
                phoneConfirmed := false, authProvider := authProviderGoogle,
                googleSub := p.sub, enable := 1 }
            let st1 := { st with users := userPut st.users u }
            mintSession sign dur st1 u deviceUUID f
      | .ok u =>
        if u.enable = 0 then
          (.error (wrapErr "account disabled" .unauthorized), st)
        else if u.googleSub ≠ "" ∧ u.googleSub ≠ p.sub then
          (.error (wrapErr "google account mismatch" .unauthorized), st)
        else if u.googleSub = "" then
          if u.passwordHash = "" then
            (.error (wrapErr "google linking not allowed for this account"
              .unauthorized), st)
          else
            let u1 := { u with googleSub := p.sub,
                               authProvider := authProviderGoogle }
            let st1 := if updOk then
                { st with users := userLinkGoogle st.users u.userID p.sub }
              else st
            mintSession sign dur st1 u1 deviceUUID f
        else
          mintSession sign dur st u deviceUUID f

/-! ## Verification code service (`application/auth/service.go`)

`deleteOk` injects the outcome of the best-effort `VerificationRepo.Delete`
call: on `false` the delete failed and was only logged, leaving the store
unchanged; either way the operation continues. -/

/-- The partial update `map[string]interface{}{"email_confirmed": true}`. -/
def userSetEmailConfirmed (users : List User) (userID : String) : List User :=
  users.map (fun u =>
    if u.userID = userID then { u with emailConfirmed := true } else u)

/-- The partial update `map[string]interface{}{"phone_confirmed": true}`. -/
def userSetPhoneConfirmed (users : List User) (userID : String) : List User :=
  users.map (fun u =>
    if u.userID = userID then { u with phoneConfirmed := true } else u)

/-- `service.ValidateOTP`: require an email; collapse a user-lookup failure
into `"user not found" ErrNotFound` and a verification-lookup failure into
`"OTP not found" ErrNotFound`; constant-time-compare the submitted code and
reject a mismatch (`"invalid OTP"`) or a past expiry (`"OTP expired"`) with
ErrUnauthorized; best-effort-delete the spent record; then mint a recovery
session exactly as `Login` does. -/
def ValidateOTP (sign : Signer) (dur : Int) (st : AppState) (otp : String)
    (email : Option String) (deviceUUID : Option String) (f : Fresh)
    (deleteOk : Bool) : Except AppError LoginResult × AppState :=
  match email with
  | none => (.error (wrapErr "email required to validate OTP" .badRequest), st)
  | some em =>
    match userGetByEmail st.users em with
    | .error _ => (.error (wrapErr "user not found" .notFound), st)
    | .ok u =>
      match verGet st.verifications u.userID "otp" with
      | .error _ => (.error (wrapErr "OTP not found" .notFound), st)
      | .ok v =>
        if ¬ v.code = otp then
          (.error (wrapErr "invalid OTP" .unauthorized), st)
        else if v.expiresAt < f.now then
          (.error (wrapErr "OTP expired" .unauthorized), st)
        else
          let st := if deleteOk then
              { st with verifications := verDelete st.verifications u.userID "otp" }
            else st
          mintSession sign dur st u deviceUUID f

/-- `service.ValidateEmailToken`: collapse a verification-lookup failure into
`"token not found" ErrNotFound`; reject a mismatch (`"invalid token"`) or a
past expiry (`"token expired"`) with ErrUnauthorized; best-effort-delete the
spent record; then flip `email_confirmed` on the user. -/
def ValidateEmailToken (st : AppState) (userID token : String) (now : Int)
    (deleteOk : Bool) : Except AppError Unit × AppState :=
  match verGet st.verifications userID "email" with
  | .error _ => (.error (wrapErr "token not found" .notFound), st)
  | .ok v =>
    if ¬ v.code = token then
      (.error (wrapErr "invalid token" .unauthorized), st)
    else if v.expiresAt < now then
      (.error (wrapErr "token expired" .unauthorized), st)
    else
      let st := if deleteOk then
          { st with verifications := verDelete st.verifications userID "email" }
        else st
      (.ok (), { st with users := userSetEmailConfirmed st.users userID })

/-- `service.ValidatePhoneOTP`: same shape as `ValidateEmailToken` over the
`"phone"` record, flipping `phone_confirmed`. -/
def ValidatePhoneOTP (st : AppState) (userID otp : String) (now : Int)
    (deleteOk : Bool) : Except AppError Unit × AppState :=
  match verGet st.verifications userID "phone" with
  | .error _ => (.error (wrapErr "OTP not found" .notFound), st)
  | .ok v =>
    if ¬ v.code = otp then
      (.error (wrapErr "invalid OTP" .unauthorized), st)
    else if v.expiresAt < now then
      (.error (wrapErr "OTP expired" .unauthorized), st)
    else
      let st := if deleteOk then
          { st with verifications := verDelete st.verifications userID "phone" }
        else st
      (.ok (), { st with users := userSetPhoneConfirmed st.users userID })

/-! ## Login HTTP handler (`transport/http/handler/sessions.go`) -/

/-- The outward-observable result of the `Login` endpoint: the HTTP status
and, on failure, the `MessageEnvelope.Error` body field, which the handler
fills with `err.Error()` (`writeError(w, http.StatusUnauthorized,
err.Error())`). -/
def LoginHTTP (sign : Signer) (pwMatch : String → String → Bool) (dur : Int)
    (st : AppState) (username password : String) (deviceUUID : Option String)
    (f : Fresh) : Nat × Option String :=
  match (Login sign pwMatch dur st username password deviceUUID f).1 with
  | .error e => (401, some e.msg)
  | .ok _ => (200, none)

/-! # Theorems -/

/-- Claim C10: Device Resolve is idempotent — when the device store contains
a device with the supplied UUID, every Resolve call with that UUID returns
that stored device and performs no write, for any userID argument (including
one differing from the stored device's owner), so two calls with the same
UUID yield the same device id. -/
theorem resolve_idempotent (devices : List Device) (uuid : String) (d : Device)
    (h : devices.find? (fun x => x.uuid = uuid) = some d)
    (uid1 uid2 fid1 fuu1 fid2 fuu2 : String) (n1 n2 : Int) :
    Resolve devices (some uuid) uid1 fid1 fuu1 n1 = (.ok d, devices) ∧
    Resolve devices (some uuid) uid2 fid2 fuu2 n2 = (.ok d, devices) ∧
    (Resolve devices (some uuid) uid1 fid1 fuu1 n1).1 =
      (Resolve devices (some uuid) uid2 fid2 fuu2 n2).1 := by
  simp [Resolve, devGetByUUID, h]

/-- A concrete stored device for witnesses. -/
def devA : Device :=
  { deviceID := "d1", uuid := "uu1", userID := "alice", token := none,
    appVersionID := "", enable := true, createdAt := 0, updatedAt := 0 }

/-- Witness for C10: a store holding `devA`; two Resolve calls with
`devA`'s UUID and two different user ids both return `devA` unchanged. -/
theorem resolve_idempotent_witness :
    [devA].find? (fun x => x.uuid = "uu1") = some devA ∧
    Resolve [devA] (some "uu1") "bob" "f1" "g1" 5 = (.ok devA, [devA]) ∧
    Resolve [devA] (some "uu1") "carol" "f2" "g2" 9 = (.ok devA, [devA]) := by
  have h : [devA].find? (fun x => x.uuid = "uu1") = some devA := by
    simp [devA, List.find?]
  have hmain :=
    resolve_idempotent [devA] "uu1" devA h "bob" "carol" "f1" "g1" "f2" "g2" 5 9
  exact ⟨h, hmain.1, hmain.2.1⟩

/-- Counterexample for C5 as stated: the OTP alphabet has 31 symbols, not
32 (the 36 uppercase alphanumerics minus the five excluded glyphs). -/
theorem otp_alphabet_not_32 :
    otpChars.length ≠ 32 ∧ otpChars.length = 31 := by decide

/-- Claim C5 (amended): every generated OTP is exactly 6 characters, each
drawn from the 31-symbol restricted uppercase-alphanumeric alphabet that
excludes the visually ambiguous glyphs 0, 1, I, L and O. -/
theorem generateOTP_spec (picks : Fin 6 → Fin otpChars.length) :
    (generateOTP picks).length = 6 ∧
    otpChars.length = 31 ∧
    otpChars.data.Nodup ∧
    (∀ c ∈ (generateOTP picks).data, c ∈ otpChars.data) ∧
    (∀ c ∈ otpChars.data,
      c ≠ '0' ∧ c ≠ '1' ∧ c ≠ 'I' ∧ c ≠ 'L' ∧ c ≠ 'O' ∧
      (c.isUpper ∨ c.isDigit)) := by
  refine ⟨?_, by decide, by decide, ?_, by decide⟩
  · show ((List.finRange 6).map (fun i => otpChars.data.get (picks i))).length = 6
    rw [List.length_map, List.length_finRange]
  · intro c hc
    have hc' : c ∈ (List.finRange 6).map (fun i => otpChars.data.get (picks i)) :=
      hc
    rw [List.mem_map] at hc'
    obtain ⟨i, _, rfl⟩ := hc'
    exact List.get_mem _ (picks i).1 (picks i).2

/-- Witness for C5 (amended) at the constant draw 0: the OTP "222222" has
length 6 and its characters lie in the restricted alphabet. -/
theorem generateOTP_spec_witness :
    (generateOTP (fun _ => ⟨0, by decide⟩)).length = 6 ∧
    '2' ∈ otpChars.data := by
  have h := generateOTP_spec (fun _ => ⟨0, by decide⟩)
  refine ⟨h.1, h.2.2.2.1 '2' ?_⟩
  decide

/-- A concrete succeeding signer for witnesses. -/
def signOk : Signer := fun u d r s => .ok (u ++ "." ++ d ++ "." ++ r ++ "." ++ s)

/-- Claim C2: Refresh rejects with Unauthorized whenever the session looked
up by the presented refresh token is not found, is disabled, or has a refresh
expiry earlier than the current time; a bearer/refresh pair is returned only
for a found, enabled, unexpired session. -/
theorem refresh_rejects (sign : Signer) (dur : Int) (st : AppState)
    (tok : String) (now : Int) (newTok : String) :
    (st.sessions.find? (fun s => s.refreshToken = tok) = none →
      ∃ e, (Refresh sign dur st tok now newTok).1 = .error e ∧
        errIs e .unauthorized = true) ∧
    (∀ s, st.sessions.find? (fun x => x.refreshToken = tok) = some s →
      s.enable = false →
      ∃ e, (Refresh sign dur st tok now newTok).1 = .error e ∧
        errIs e .unauthorized = true) ∧
    (∀ s, st.sessions.find? (fun x => x.refreshToken = tok) = some s →
      s.refreshExpiresAt < now →
      ∃ e, (Refresh sign dur st tok now newTok).1 = .error e ∧
        errIs e .unauthorized = true) ∧
    (∀ r, (Refresh sign dur st tok now newTok).1 = .ok r →
      ∃ s, st.sessions.find? (fun x => x.refreshToken = tok) = some s ∧
        s.enable = true ∧ ¬ s.refreshExpiresAt < now) := by
  refine ⟨?_, ?_, ?_, ?_⟩
  · intro hfind
    refine ⟨wrapErr "invalid or expired refresh token" .unauthorized, ?_, rfl⟩
    simp [Refresh, sessGetByRefreshToken, hfind]
  · intro s hfind henable
    refine ⟨wrapErr "invalid or expired refresh token" .unauthorized, ?_, rfl⟩
    simp [Refresh, sessGetByRefreshToken, hfind, henable]
  · intro s hfind hexp
    by_cases henable : s.enable
    · refine ⟨wrapErr "refresh token expired" .unauthorized, ?_, rfl⟩
      simp [Refresh, sessGetByRefreshToken, hfind, henable, hexp]
    · refine ⟨wrapErr "invalid or expired refresh token" .unauthorized, ?_, rfl⟩
      simp [Refresh, sessGetByRefreshToken, hfind, henable]
  · intro r hok
    cases hfind : st.sessions.find? (fun x => x.refreshToken = tok) with
    | none => simp [Refresh, sessGetByRefreshToken, hfind] at hok
    | some s =>
      refine ⟨s, rfl, ?_, ?_⟩
      · by_contra henable
        simp only [Bool.not_eq_true] at henable
        simp [Refresh, sessGetByRefreshToken, hfind, henable] at hok
      · intro hexp
        by_cases henable : s.enable
        · simp [Refresh, sessGetByRefreshToken, hfind, henable, hexp] at hok
        · simp [Refresh, sessGetByRefreshToken, hfind, henable] at hok

/-- A concrete disabled session for witnesses. -/
def sessDisabled : Session :=
  { sessionID := "s1", userID := "u1", deviceID := "d1", enable := false,
    refreshToken := "rt-old", refreshExpiresAt := 1000, createdAt := 0,
    updatedAt := 0 }

/-- A concrete state holding only the disabled session. -/
def stDisabled : AppState :=
  { users := [], sessions := [sessDisabled], devices := [], verifications := [] }

/-- Witness for C2: presenting the refresh token of a disabled session is
rejected with an Unauthorized-based error. -/
theorem refresh_rejects_witness :
    ∃ e, (Refresh signOk 3600 stDisabled "rt-old" 10 "rt-new").1 = .error e ∧
      errIs e .unauthorized = true := by
  refine (refresh_rejects signOk 3600 stDisabled "rt-old" 10 "rt-new").2.1
    sessDisabled ?_ rfl
  simp [stDisabled, sessDisabled, List.find?]

/-- No session in the store holds the given refresh token. -/
def tokenAbsent (ss : List Session) (tok : String) : Prop :=
  ∀ s ∈ ss, s.refreshToken ≠ tok

/-- Run a sequence of Refresh calls (presented token, current time, injected
fresh token), threading the state and discarding the results. -/
def runRefreshes (sign : Signer) (dur : Int) (st : AppState)
    (calls : List (String × Int × String)) : AppState :=
  calls.foldl (fun s c => (Refresh sign dur s c.1 c.2.1 c.2.2).2) st

/-- A Refresh presented with a token held by no stored session fails with the
generic Unauthorized rejection and leaves the state unchanged. -/
theorem refresh_of_absent (sign : Signer) (dur : Int) (st : AppState)
    (tok : String) (now : Int) (newTok : String)
    (h : tokenAbsent st.sessions tok) :
    Refresh sign dur st tok now newTok =
      (.error (wrapErr "invalid or expired refresh token" .unauthorized), st) := by
  have hfind : st.sessions.find? (fun s => s.refreshToken = tok) = none := by
    rw [List.find?_eq_none]
    intro s hs
    simpa using h s hs
  simp [Refresh, sessGetByRefreshToken, hfind]

/-- Rotating the session that holds `tok` to a different token removes `tok`
from the store, provided every holder of `tok` is the rotated session. -/
theorem rotate_removes_token (ss : List Session) (sid newTok : String)
    (tok : String) (e n : Int)
    (honly : ∀ s ∈ ss, s.refreshToken = tok → s.sessionID = sid)
    (hnew : newTok ≠ tok) :
    tokenAbsent (rotateRefreshToken ss sid newTok e n) tok := by
  intro s' hs'
  rw [rotateRefreshToken, List.mem_map] at hs'
  obtain ⟨s, hs, rfl⟩ := hs'
  by_cases hid : s.sessionID = sid
  · simp [hid, hnew]
  · simp only [hid, if_false]
    intro htok
    exact hid (honly s hs htok)

/-- Inversion of `sessGetByRefreshToken` success: the token found an enabled
session. -/
theorem sessGet_ok_inv (ss : List Session) (tok : String) (s : Session)
    (h : sessGetByRefreshToken ss tok = .ok s) :
    ss.find? (fun x => x.refreshToken = tok) = some s ∧ s.enable = true := by
  unfold sessGetByRefreshToken at h
  cases hfind : ss.find? (fun x => x.refreshToken = tok) with
  | none => rw [hfind] at h; simp at h
  | some s0 =>
    rw [hfind] at h
    by_cases he : s0.enable
    · simp [he] at h
      exact ⟨by rw [h], by rw [← h]; exact he⟩
    · simp [he] at h

/-- Inversion of a successful Refresh: the presented token found an enabled,
unexpired session, and the resulting store is that session rotated to the
injected fresh token. -/
theorem refresh_ok_inv (sign : Signer) (dur : Int) (st : AppState)
    (tok : String) (now : Int) (newTok : String) (out : String × String)
    (st1 : AppState)
    (h : Refresh sign dur st tok now newTok = (.ok out, st1)) :
    ∃ sess, st.sessions.find? (fun s => s.refreshToken = tok) = some sess ∧
      sess.enable = true ∧ ¬ sess.refreshExpiresAt < now ∧
      st1.sessions =
        rotateRefreshToken st.sessions sess.sessionID newTok (now + dur) now := by
  rw [Refresh] at h
  split at h
  · simp at h
  · next sess heq =>
    obtain ⟨hfind, henable⟩ := sessGet_ok_inv st.sessions tok sess heq
    refine ⟨sess, hfind, henable, ?_⟩
    split at h
    · next hexp => simp at h
    · next hexp =>
      refine ⟨hexp, ?_⟩
      dsimp only at h
      split at h
      · split at h <;> simp only [Prod.mk.injEq] at h <;> exact absurd h.1 (by simp)
      · split at h
        · simp only [Prod.mk.injEq] at h
          exact absurd h.1 (by simp)
        · simp only [Prod.mk.injEq] at h
          rw [← h.2]

/-- One Refresh call whose injected fresh token differs from `tok` preserves
the absence of `tok` from the session store. -/
theorem refresh_preserves_absent (sign : Signer) (dur : Int) (st : AppState)
    (tok tok2 : String) (now2 : Int) (newTok2 : String)
    (h : tokenAbsent st.sessions tok) (hnew : newTok2 ≠ tok) :
    tokenAbsent (Refresh sign dur st tok2 now2 newTok2).2.sessions tok := by
  have hrot : ∀ sid e n,
      tokenAbsent (rotateRefreshToken st.sessions sid newTok2 e n) tok := by
    intro sid e n
    refine rotate_removes_token _ _ _ _ _ _ ?_ hnew
    intro s hs htok
    exact absurd htok (h s hs)
  rw [Refresh]
  split
  · exact h
  · next sess heq =>
    split
    · exact h
    · dsimp only
      split
      · split
        · exact hrot _ _ _
        · exact hrot _ _ _
      · split
        · exact hrot _ _ _
        · exact hrot _ _ _

/-- A sequence of Refresh calls none of whose injected fresh tokens equals
`tok` preserves the absence of `tok`. -/
theorem runRefreshes_preserves_absent (sign : Signer) (dur : Int)
    (calls : List (String × Int × String)) :
    ∀ (st : AppState), tokenAbsent st.sessions tok →
      (∀ c ∈ calls, c.2.2 ≠ tok) →
      tokenAbsent (runRefreshes sign dur st calls).sessions tok := by
  induction calls with
  | nil => intro st h _; simpa [runRefreshes] using h
  | cons c rest ih =>
    intro st h hfresh
    have h1 : tokenAbsent (Refresh sign dur st c.1 c.2.1 c.2.2).2.sessions tok :=
      refresh_preserves_absent sign dur st tok c.1 c.2.1 c.2.2 h
        (hfresh c (List.mem_cons_self c rest))
    have := ih (Refresh sign dur st c.1 c.2.1 c.2.2).2 h1
      (fun c' hc' => hfresh c' (List.mem_cons_of_mem c hc'))
    simpa [runRefreshes] using this

/-- Claim C1: Refresh is single-use — once a Refresh call has successfully
rotated a refresh token (persisting a new token and expiry), any later
sequential Refresh call presented with the old token fails with the generic
Unauthorized rejection and never again validates, however many intervening
Refresh calls (with fresh rotation tokens) have run. -/
theorem refresh_single_use (sign : Signer) (dur : Int) (st : AppState)
    (tok : String) (now : Int) (newTok : String) (out : String × String)
    (st1 : AppState)
    (hrun : Refresh sign dur st tok now newTok = (.ok out, st1))
    (huniq : ∀ s1 ∈ st.sessions, ∀ s2 ∈ st.sessions,
      s1.refreshToken = tok → s2.refreshToken = tok → s1 = s2)
    (hnew : newTok ≠ tok)
    (calls : List (String × Int × String))
    (hfresh : ∀ c ∈ calls, c.2.2 ≠ tok)
    (now2 : Int) (fresh2 : String) :
    (Refresh sign dur (runRefreshes sign dur st1 calls) tok now2 fresh2).1 =
      .error (wrapErr "invalid or expired refresh token" .unauthorized) := by
  obtain ⟨sess, hfind, _, _, hsess1⟩ :=
    refresh_ok_inv sign dur st tok now newTok out st1 hrun
  have hmem : sess ∈ st.sessions := List.mem_of_find?_eq_some hfind
  have htoksess : sess.refreshToken = tok := by
    have := List.find?_some hfind
    simpa using this
  have habs1 : tokenAbsent st1.sessions tok := by
    rw [hsess1]
    refine rotate_removes_token _ _ _ _ _ _ ?_ hnew
    intro s hs htok
    rw [huniq s hs sess hmem htok htoksess]
  have habs2 : tokenAbsent (runRefreshes sign dur st1 calls).sessions tok :=
    runRefreshes_preserves_absent sign dur calls st1 habs1 hfresh
  rw [refresh_of_absent sign dur _ tok now2 fresh2 habs2]

/-- A concrete enabled user for witnesses. -/
def userU1 : User :=
  { userID := "u1", username := "alice", email := "alice@example.com",
    phone := none, passwordHash := "hash", role := "User", firstName := "A",
    lastName := "B", verified := true, emailConfirmed := true,
    phoneConfirmed := false, authProvider := "local", googleSub := "",
    enable := 1 }

/-- A concrete enabled session holding refresh token "rt-old". -/
def sessLive : Session :=
  { sessionID := "s1", userID := "u1", deviceID := "d1", enable := true,
    refreshToken := "rt-old", refreshExpiresAt := 1000, createdAt := 0,
    updatedAt := 0 }

/-- A concrete state with one enabled user and one live session. -/
def stLive : AppState :=
  { users := [userU1], sessions := [sessLive], devices := [],
    verifications := [] }

/-- Witness for C1: refreshing with "rt-old" succeeds and rotates; a second
Refresh presented with "rt-old" against the resulting state fails with the
generic Unauthorized rejection. -/
theorem refresh_single_use_witness :
    (Refresh signOk 3600 stLive "rt-old" 10 "rt-1").1 =
      .ok ("u1.d1.User.s1", "rt-1") ∧
    (Refresh signOk 3600
        (runRefreshes signOk 3600 (Refresh signOk 3600 stLive "rt-old" 10 "rt-1").2 [])
        "rt-old" 20 "rt-2").1 =
      .error (wrapErr "invalid or expired refresh token" .unauthorized) := by
  refine ⟨rfl, ?_⟩
  refine refresh_single_use signOk 3600 stLive "rt-old" 10 "rt-1"
    ("u1.d1.User.s1", "rt-1") (Refresh signOk 3600 stLive "rt-old" 10 "rt-1").2
    rfl ?_ (by decide) [] (by simp) 20 "rt-2"
  decide

/-- Deleting a verification record removes it: a subsequent Get on the same
key misses. -/
theorem verGet_delete (vs : List Verification) (uid t : String) :
    verGet (verDelete vs uid t) uid t =
      .error (wrapErr "verification not found" .notFound) := by
  unfold verGet verDelete
  have hnone : ((vs.filter fun v => ¬ (v.userID = uid ∧ v.vtype = t)).find?
      (fun v => v.userID = uid ∧ v.vtype = t)) = none := by
    rw [List.find?_eq_none]
    intro v hv
    have h2 := List.of_mem_filter hv
    simp at h2 ⊢
    tauto
  rw [hnone]

/-- The session-minting block touches only the device and session stores:
users and verifications pass through unchanged, and on success the returned
snapshot is the given user. -/
theorem mint_ok_inv (sign : Signer) (dur : Int) (st : AppState) (u : User)
    (duuid : Option String) (f : Fresh) (r : LoginResult) (st1 : AppState)
    (h : mintSession sign dur st u duuid f = (.ok r, st1)) :
    r.user = u ∧ st1.users = st.users ∧
      st1.verifications = st.verifications := by
  rw [mintSession] at h
  split at h
  · simp at h
  · next dev devs hres =>
    dsimp only at h
    split at h
    · simp at h
    · next bearer hsg =>
      simp only [Prod.mk.injEq, Except.ok.injEq] at h
      obtain ⟨h1, h2⟩ := h
      rw [← h1, ← h2]
      exact ⟨rfl, rfl, rfl⟩

/-- Claim C3: a verification code validates successfully at most once — after
a successful ValidateOTP / ValidateEmailToken / ValidatePhoneOTP (with the
best-effort delete taking effect), the stored record is gone and
re-submitting the same code to the same operation fails. -/
theorem code_single_use (sign : Signer) (dur : Int) (st : AppState) :
    (∀ otp em duuid f r st1 duuid2 f2 delOk2,
      ValidateOTP sign dur st otp (some em) duuid f true = (.ok r, st1) →
      verGet st1.verifications r.user.userID "otp" =
        .error (wrapErr "verification not found" .notFound) ∧
      (ValidateOTP sign dur st1 otp (some em) duuid2 f2 delOk2).1 =
        .error (wrapErr "OTP not found" .notFound)) ∧
    (∀ uid token now st1 now2 delOk2,
      ValidateEmailToken st uid token now true = (.ok (), st1) →
      verGet st1.verifications uid "email" =
        .error (wrapErr "verification not found" .notFound) ∧
      (ValidateEmailToken st1 uid token now2 delOk2).1 =
        .error (wrapErr "token not found" .notFound)) ∧
    (∀ uid potp now st1 now2 delOk2,
      ValidatePhoneOTP st uid potp now true = (.ok (), st1) →
      verGet st1.verifications uid "phone" =
        .error (wrapErr "verification not found" .notFound) ∧
      (ValidatePhoneOTP st1 uid potp now2 delOk2).1 =
        .error (wrapErr "OTP not found" .notFound)) := by
  refine ⟨?_, ?_, ?_⟩
  · intro otp em duuid f r st1 duuid2 f2 delOk2 h
    rw [ValidateOTP] at h
    split at h
    · next hu => simp at h
    · next u hu =>
      split at h
      · simp at h
      · next v hv =>
        split at h
        · simp at h
        · next hcode =>
          split at h
          · simp at h
          · next hexp =>
            simp only [if_true] at h
            obtain ⟨huser, husers, hvers⟩ := mint_ok_inv sign dur _ u duuid f r st1 h
            have hvdel : st1.verifications = verDelete st.verifications u.userID "otp" :=
              hvers
            have husers' : st1.users = st.users := husers
            refine ⟨?_, ?_⟩
            · rw [huser, hvdel]
              exact verGet_delete _ _ _
            · rw [ValidateOTP, husers', hu, hvdel]
              simp [verGet_delete]
  · intro uid token now st1 now2 delOk2 h
    rw [ValidateEmailToken] at h
    split at h
    · simp at h
    · next v hv =>
      split at h
      · simp at h
      · split at h
        · simp at h
        · simp only [if_true, Prod.mk.injEq] at h
          have hst1 : st1.verifications = verDelete st.verifications uid "email" := by
            rw [← h.2]
          refine ⟨by rw [hst1]; exact verGet_delete _ _ _, ?_⟩
          rw [ValidateEmailToken, hst1, verGet_delete]
  · intro uid potp now st1 now2 delOk2 h
    rw [ValidatePhoneOTP] at h
    split at h
    · simp at h
    · next v hv =>
      split at h
      · simp at h
      · split at h
        · simp at h
        · simp only [if_true, Prod.mk.injEq] at h
          have hst1 : st1.verifications = verDelete st.verifications uid "phone" := by
            rw [← h.2]
          refine ⟨by rw [hst1]; exact verGet_delete _ _ _, ?_⟩
          rw [ValidatePhoneOTP, hst1, verGet_delete]

/-- A concrete pending recovery OTP for `userU1`. -/
def verOtpW : Verification :=
  { userID := "u1", vtype := "otp", code := "ABC234", expiresAt := 1000 }

/-- A concrete state with one user and one pending recovery OTP. -/
def stOtp : AppState :=
  { users := [userU1], sessions := [], devices := [], verifications := [verOtpW] }

/-- Concrete injected fresh values for witnesses. -/
def freshW : Fresh :=
  { now := 10, userID := "nu", sessionID := "ns", deviceID := "nd",
    deviceUUID := "nuu", refreshToken := "nrt" }

/-- The session created by the witness recovery validation. -/
def sessW : Session :=
  { sessionID := "ns", userID := "u1", deviceID := "nd", enable := true,
    refreshToken := "nrt", refreshExpiresAt := 3610, createdAt := 10,
    updatedAt := 10 }

/-- The result of the witness recovery validation. -/
def rW : LoginResult :=
  { bearer := "u1.nd.User.ns", refreshToken := "nrt", session := sessW,
    user := userU1 }

/-- Witness for C3: validating the pending OTP succeeds once; replaying the
same OTP against the resulting state fails. -/
theorem code_single_use_witness :
    (ValidateOTP signOk 3600 stOtp "ABC234" (some "alice@example.com") none
      freshW true).1 = .ok rW ∧
    (ValidateOTP signOk 3600
      (ValidateOTP signOk 3600 stOtp "ABC234" (some "alice@example.com") none
        freshW true).2
      "ABC234" (some "alice@example.com") none freshW true).1 =
      .error (wrapErr "OTP not found" .notFound) := by
  have h := (code_single_use signOk 3600 stOtp).1 "ABC234" "alice@example.com"
    none freshW rW
    (ValidateOTP signOk 3600 stOtp "ABC234" (some "alice@example.com") none
      freshW true).2
    none freshW true (by rfl)
  exact ⟨rfl, h.2⟩

/-- The result value of the session-minting block does not depend on stores
other than the device store. -/
theorem mint_fst_congr (sign : Signer) (dur : Int) (st1 st2 : AppState)
    (u : User) (duuid : Option String) (f : Fresh)
    (h : st1.devices = st2.devices) :
    (mintSession sign dur st1 u duuid f).1 =
      (mintSession sign dur st2 u duuid f).1 := by
  rw [mintSession, mintSession, h]
  rcases hres : Resolve st2.devices duuid u.userID f.deviceID f.deviceUUID f.now
    with ⟨res, devs⟩
  cases res with
  | error e => rfl
  | ok dev =>
    dsimp only
    rcases hsg : sign u.userID dev.deviceID u.role f.sessionID with e | b <;> rfl

/-- Claim C9: deleting a spent verification record is best-effort — the
outcome of each validation operation is identical whether the delete
succeeded or failed (so an otherwise-successful call still returns success,
the deletion failure being only logged), and on success with a failed delete
the confirmation flag is still set. -/
theorem delete_best_effort (sign : Signer) (dur : Int) (st : AppState)
    (otp : String) (email : Option String) (duuid : Option String) (f : Fresh)
    (uid token potp : String) (now : Int) :
    (ValidateOTP sign dur st otp email duuid f false).1 =
      (ValidateOTP sign dur st otp email duuid f true).1 ∧
    (ValidateEmailToken st uid token now false).1 =
      (ValidateEmailToken st uid token now true).1 ∧
    (ValidatePhoneOTP st uid potp now false).1 =
      (ValidatePhoneOTP st uid potp now true).1 ∧
    ((ValidateEmailToken st uid token now false).1 = .ok () →
      (ValidateEmailToken st uid token now false).2.users =
        userSetEmailConfirmed st.users uid) := by
  refine ⟨?_, ?_, ?_, ?_⟩
  · cases email with
    | none => rfl
    | some em =>
      rw [ValidateOTP, ValidateOTP]
      split
      · rfl
      · split
        · rfl
        · split
          · rfl
          · split
            · rfl
            · exact mint_fst_congr sign dur _ _ _ duuid f rfl
  · rw [ValidateEmailToken, ValidateEmailToken]
    split
    · rfl
    · split
      · rfl
      · split
        · rfl
        · rfl
  · rw [ValidatePhoneOTP, ValidatePhoneOTP]
    split
    · rfl
    · split
      · rfl
      · split
        · rfl
        · rfl
  · intro hok
    rw [ValidateEmailToken] at hok ⊢
    split at hok
    · simp at hok
    · next v hv =>
      split at hok
      · simp at hok
      · next hcode =>
        split at hok
        · simp at hok
        · next hexp =>
          rw [if_neg hcode, if_neg hexp]
          rfl

/-- A concrete user with an unconfirmed email. -/
def userU2 : User :=
  { userID := "u2", username := "bob", email := "bob@example.com",
    phone := none, passwordHash := "hash2", role := "User", firstName := "B",
    lastName := "C", verified := false, emailConfirmed := false,
    phoneConfirmed := false, authProvider := "local", googleSub := "",
    enable := 1 }

/-- A concrete state with a pending email-confirmation token for `userU2`. -/
def stEmailW : AppState :=
  { users := [userU2], sessions := [], devices := [],
    verifications := [{ userID := "u2", vtype := "email", code := "TOK",
                        expiresAt := 1000 }] }

/-- Witness for C9: validating the email token with a failing delete returns
the same success as with a succeeding delete, and still flips the
confirmation flag. -/
theorem delete_best_effort_witness :
    (ValidateEmailToken stEmailW "u2" "TOK" 10 false).1 =
      (ValidateEmailToken stEmailW "u2" "TOK" 10 true).1 ∧
    (ValidateEmailToken stEmailW "u2" "TOK" 10 false).2.users =
      userSetEmailConfirmed stEmailW.users "u2" := by
  have h := delete_best_effort signOk 3600 stEmailW "x" none none freshW
    "u2" "TOK" "p" 10
  exact ⟨h.2.1, h.2.2.2 (by rfl)⟩

/-- A concrete state with a user but no pending verification record. -/
def stNoCode : AppState :=
  { users := [userU1], sessions := [], devices := [], verifications := [] }

/-- Counterexample for C6 as stated: a failing ValidateOTP outcome does use
NotFound — with the record absent, the error wraps ErrNotFound, not
ErrUnauthorized. -/
theorem notfound_leak_counterexample :
    (ValidateOTP signOk 3600 stNoCode "ABC234" (some "alice@example.com") none
      freshW true).1 = .error (wrapErr "OTP not found" .notFound) ∧
    errIs (wrapErr "OTP not found" .notFound) .notFound = true ∧
    errIs (wrapErr "OTP not found" .notFound) .unauthorized = false := by
  exact ⟨rfl, rfl, rfl⟩

/-- Claim C6 (amended): the code-validation paths distinguish their failures
— a missing record (or missing user) yields an ErrNotFound-based error while
a present-but-mismatched code yields an ErrUnauthorized-based one, so
NotFound does leak into ValidateOTP, ValidateEmailToken and
ValidatePhoneOTP. -/
theorem code_validation_notfound_split (sign : Signer) (dur : Int)
    (st : AppState) (otp token potp em : String) (u : User)
    (duuid : Option String) (f : Fresh) (delOk : Bool) (uid : String)
    (now : Int) :
    (userGetByEmail st.users em = .ok u →
      verGet st.verifications u.userID "otp" =
        .error (wrapErr "verification not found" .notFound) →
      (ValidateOTP sign dur st otp (some em) duuid f delOk).1 =
        .error (wrapErr "OTP not found" .notFound)) ∧
    (∀ v, userGetByEmail st.users em = .ok u →
      verGet st.verifications u.userID "otp" = .ok v → ¬ v.code = otp →
      (ValidateOTP sign dur st otp (some em) duuid f delOk).1 =
        .error (wrapErr "invalid OTP" .unauthorized)) ∧
    (verGet st.verifications uid "email" =
        .error (wrapErr "verification not found" .notFound) →
      (ValidateEmailToken st uid token now delOk).1 =
        .error (wrapErr "token not found" .notFound)) ∧
    (∀ v, verGet st.verifications uid "email" = .ok v → ¬ v.code = token →
      (ValidateEmailToken st uid token now delOk).1 =
        .error (wrapErr "invalid token" .unauthorized)) ∧
    (verGet st.verifications uid "phone" =
        .error (wrapErr "verification not found" .notFound) →
      (ValidatePhoneOTP st uid potp now delOk).1 =
        .error (wrapErr "OTP not found" .notFound)) ∧
    (∀ v, verGet st.verifications uid "phone" = .ok v → ¬ v.code = potp →
      (ValidatePhoneOTP st uid potp now delOk).1 =
        .error (wrapErr "invalid OTP" .unauthorized)) := by
  refine ⟨?_, ?_, ?_, ?_, ?_, ?_⟩
  · intro hu hget
    simp only [ValidateOTP, hu, hget]
  · intro v hu hv hcode
    simp only [ValidateOTP, hu, hv, if_pos hcode]
  · intro hget
    simp only [ValidateEmailToken, hget]
  · intro v hv hcode
    simp only [ValidateEmailToken, hv, if_pos hcode]
  · intro hget
    simp only [ValidatePhoneOTP, hget]
  · intro v hv hcode
    simp only [ValidatePhoneOTP, hv, if_pos hcode]

/-- Witness for C6 (amended): with no pending email record, validation fails
with the NotFound-based error. -/
theorem code_validation_notfound_split_witness :
    (ValidateEmailToken stNoCode "u1" "TOK" 10 true).1 =
      .error (wrapErr "token not found" .notFound) := by
  exact (code_validation_notfound_split signOk 3600 stNoCode "x" "TOK" "p"
    "alice@example.com" userU1 none freshW true "u1" 10).2.2.1 rfl

/-- Claim C8: LoginWithGoogle rejects with Unauthorized and performs zero
side effects (the state is returned exactly as given) whenever the verified
payload has emailVerified = false, an empty email, or an empty subject. -/
theorem google_reject_no_side_effects (sign : Signer) (dur : Int)
    (st : AppState) (p : GooglePayload) (duuid : Option String) (f : Fresh)
    (updOk : Bool)
    (h : p.emailVerified = false ∨ p.email = "" ∨ p.sub = "") :
    ∃ e, LoginWithGoogle sign dur st (.ok p) duuid f updOk = (.error e, st) ∧
      errIs e .unauthorized = true := by
  rcases h with h | h | h
  · refine ⟨wrapErr "google email not verified" .unauthorized, ?_, rfl⟩
    simp [LoginWithGoogle, h]
  · by_cases hv : p.emailVerified
    · refine ⟨wrapErr "google email missing" .unauthorized, ?_, rfl⟩
      have htrim : goTrimSpace p.email = "" := by
        rw [h]
        rfl
      simp [LoginWithGoogle, hv, htrim]
    · refine ⟨wrapErr "google email not verified" .unauthorized, ?_, rfl⟩
      simp [LoginWithGoogle, hv]
  · by_cases hv : p.emailVerified
    · by_cases ht : goTrimSpace p.email = ""
      · refine ⟨wrapErr "google email missing" .unauthorized, ?_, rfl⟩
        simp [LoginWithGoogle, hv, ht]
      · refine ⟨wrapErr "google subject missing" .unauthorized, ?_, rfl⟩
        simp [LoginWithGoogle, hv, ht, h]
    · refine ⟨wrapErr "google email not verified" .unauthorized, ?_, rfl⟩
      simp [LoginWithGoogle, hv]

/-- A concrete unverified external payload. -/
def payloadBad : GooglePayload :=
  { sub := "sub1", email := "a@b.c", emailVerified := false,
    firstName := "", lastName := "" }

/-- Witness for C8: an unverified-email payload is rejected with
Unauthorized against the live state, which is returned unchanged. -/
theorem google_reject_no_side_effects_witness :
    ∃ e, LoginWithGoogle signOk 3600 stLive (.ok payloadBad) none freshW true =
      (.error e, stLive) ∧ errIs e .unauthorized = true :=
  google_reject_no_side_effects signOk 3600 stLive payloadBad none freshW true
    (Or.inl rfl)

/-- A concrete bcrypt stand-in for witnesses: the stored hash matches
exactly the password text. -/
def pwEq : String → String → Bool := fun hash pw => hash = pw

/-- A concrete empty state. -/
def stNoUsers : AppState :=
  { users := [], sessions := [], devices := [], verifications := [] }

/-- A concrete disabled account whose password would match. -/
def userDisabledA : User :=
  { userID := "u3", username := "alice", email := "alice@e.c", phone := none,
    passwordHash := "pw", role := "User", firstName := "A", lastName := "B",
    verified := true, emailConfirmed := true, phoneConfirmed := false,
    authProvider := "local", googleSub := "", enable := 0 }

/-- A concrete state holding only the disabled account. -/
def stDisabledUser : AppState :=
  { users := [userDisabledA], sessions := [], devices := [],
    verifications := [] }

/-- Counterexample for C4 as stated: two Login calls failing for different
reasons among the three ("no such identifier" vs "account disabled") return
distinguishable results — the HTTP status is 401 in both, but the response
body's error message differs. -/
theorem login_failure_distinguishable :
    LoginHTTP signOk pwEq 3600 stNoUsers "alice" "pw" none freshW =
      (401, some "invalid credentials: unauthorized") ∧
    LoginHTTP signOk pwEq 3600 stDisabledUser "alice" "pw" none freshW =
      (401, some "account disabled: unauthorized") ∧
    LoginHTTP signOk pwEq 3600 stNoUsers "alice" "pw" none freshW ≠
      LoginHTTP signOk pwEq 3600 stDisabledUser "alice" "pw" none freshW := by
  have h1 : LoginHTTP signOk pwEq 3600 stNoUsers "alice" "pw" none freshW =
      (401, some "invalid credentials: unauthorized") := rfl
  have h2 : LoginHTTP signOk pwEq 3600 stDisabledUser "alice" "pw" none freshW =
      (401, some "account disabled: unauthorized") := rfl
  refine ⟨h1, h2, ?_⟩
  rw [h1, h2]
  decide

/-- The user a Login call settles on: either the username lookup hit, or it
missed and the email lookup hit. -/
def foundLoginUser (st : AppState) (ident : String) (u : User) : Prop :=
  userGetByUsername st.users ident = .ok u ∨
  ((∃ e, userGetByUsername st.users ident = .error e) ∧
    userGetByEmail st.users ident = .ok u)

/-- Claim C4 (amended): all three Login failure reasons yield HTTP 401 and an
error wrapping ErrUnauthorized, and "no such identifier" and "password
mismatch" produce identical responses — but the response body distinguishes
"account disabled" ("account disabled: unauthorized") from the other two
("invalid credentials: unauthorized"). -/
theorem login_failure_signals (sign : Signer)
    (pwMatch : String → String → Bool) (dur : Int) (st : AppState)
    (ident password : String) (duuid : Option String) (f : Fresh) :
    (∀ e1 e2, userGetByUsername st.users ident = .error e1 →
      userGetByEmail st.users ident = .error e2 →
      LoginHTTP sign pwMatch dur st ident password duuid f =
        (401, some (wrapErr "invalid credentials" .unauthorized).msg)) ∧
    (∀ u, foundLoginUser st ident u → u.enable = 0 →
      LoginHTTP sign pwMatch dur st ident password duuid f =
        (401, some (wrapErr "account disabled" .unauthorized).msg)) ∧
    (∀ u, foundLoginUser st ident u → ¬ u.enable = 0 →
      pwMatch u.passwordHash password = false →
      LoginHTTP sign pwMatch dur st ident password duuid f =
        (401, some (wrapErr "invalid credentials" .unauthorized).msg)) ∧
    (wrapErr "invalid credentials" .unauthorized).msg ≠
      (wrapErr "account disabled" .unauthorized).msg ∧
    errIs (wrapErr "invalid credentials" .unauthorized) .unauthorized = true ∧
    errIs (wrapErr "account disabled" .unauthorized) .unauthorized = true := by
  refine ⟨?_, ?_, ?_, by decide, rfl, rfl⟩
  · intro e1 e2 h1 h2
    simp [LoginHTTP, Login, h1, h2]
  · intro u hfound henable
    rcases hfound with hu | ⟨⟨e1, he1⟩, he2⟩
    · simp [LoginHTTP, Login, hu, henable]
    · simp [LoginHTTP, Login, he1, he2, henable]
  · intro u hfound henable hpw
    rcases hfound with hu | ⟨⟨e1, he1⟩, he2⟩
    · simp [LoginHTTP, Login, hu, henable, hpw]
    · simp [LoginHTTP, Login, he1, he2, henable, hpw]

/-- Witness for C4 (amended): concrete no-such-identifier and
account-disabled failures produce the stated responses. -/
theorem login_failure_signals_witness :
    LoginHTTP signOk pwEq 3600 stNoUsers "alice" "pw" none freshW =
      (401, some (wrapErr "invalid credentials" .unauthorized).msg) ∧
    LoginHTTP signOk pwEq 3600 stDisabledUser "alice" "pw" none freshW =
      (401, some (wrapErr "account disabled" .unauthorized).msg) := by
  constructor
  · exact (login_failure_signals signOk pwEq 3600 stNoUsers "alice" "pw" none
      freshW).1 (wrapErr "user not found" .notFound)
      (wrapErr "user not found" .notFound) rfl rfl
  · exact (login_failure_signals signOk pwEq 3600 stDisabledUser "alice" "pw"
      none freshW).2.1 userDisabledA (Or.inl rfl) rfl

/-- Packing a valid codepoint and reading it back is the identity. -/
theorem toNat_ofNatAux (n : Nat) (h : n.isValidChar) :
    (Char.ofNatAux n h).val.toNat = n := by
  simp [Char.ofNatAux, UInt32.toNat, BitVec.ofNatLt]

/-- `UInt32` order transfers to `Nat`. -/
theorem ule_iff (a b : UInt32) : a ≤ b ↔ a.toNat ≤ b.toNat := by
  simp [UInt32.le_def, BitVec.le_def, UInt32.toNat]

/-- Lowercasing never yields a basic-latin uppercase letter. -/
theorem toLower_not_upper (c : Char) : (Char.toLower c).isUpper = false := by
  unfold Char.toLower Char.isUpper
  simp only []
  by_cases h : c.toNat ≥ 65 ∧ c.toNat ≤ 90
  · rw [if_pos h]
    have hvalid : (Char.toNat c + 32).isValidChar := by
      left
      have : c.toNat ≤ 90 := h.2
      omega
    rw [Char.ofNat, dif_pos hvalid]
    have hv : (Char.ofNatAux (Char.toNat c + 32) hvalid).val.toNat =
        Char.toNat c + 32 := toNat_ofNatAux _ _
    have h90 : ¬ ((Char.ofNatAux (Char.toNat c + 32) hvalid).val ≤ 90) := by
      rw [ule_iff, hv]
      have : (90 : UInt32).toNat = 90 := rfl
      omega
    simp [h90]
  · rw [if_neg h]
    rcases Nat.lt_or_ge c.toNat 65 with hlt | hge
    · have h65 : ¬ ((65 : UInt32) ≤ c.val) := by
        rw [ule_iff]
        have : (65 : UInt32).toNat = 65 := rfl
        have hcv : c.val.toNat = c.toNat := rfl
        omega
      simp [h65]
    · have h90 : ¬ c.toNat ≤ 90 := by
        intro hh
        exact h ⟨hge, hh⟩
      have hle : ¬ (c.val ≤ (90 : UInt32)) := by
        rw [ule_iff]
        have : (90 : UInt32).toNat = 90 := rfl
        have hcv : c.val.toNat = c.toNat := rfl
        omega
      simp [hle]

/-- Whether some stored user already holds the given username. -/
def nameTaken (users : List User) (n : String) : Bool :=
  (users.find? (fun u => u.username = n)).isSome

/-- The candidates `deriveUsername` probes, in order: the base name and the
99 suffixed names base1..base99. -/
def usernameCandidates (email : String) : List String :=
  usernameBase email ::
    (List.range' 1 99).map (fun i => usernameBase email ++ toString i)

/-- A taken username makes the store lookup succeed. -/
theorem userGetByUsername_taken (users : List User) (n : String)
    (h : nameTaken users n = true) :
    ∃ u, userGetByUsername users n = .ok u := by
  unfold nameTaken at h
  unfold userGetByUsername
  cases hf : users.find? (fun u => u.username = n) with
  | none => rw [hf] at h; simp at h
  | some u => exact ⟨u, rfl⟩

/-- A free username makes the store lookup miss with ErrNotFound. -/
theorem userGetByUsername_free (users : List User) (n : String)
    (h : nameTaken users n = false) :
    userGetByUsername users n = .error (wrapErr "user not found" .notFound) := by
  unfold nameTaken at h
  unfold userGetByUsername
  cases hf : users.find? (fun u => u.username = n) with
  | none => rfl
  | some u => rw [hf] at h; simp at h

/-- The probing loop settles on its current candidate as soon as that
candidate is free. -/
theorem deriveLoop_free (users : List User) (base : String) (is : List Nat)
    (cand : String) (h : nameTaken users cand = false) :
    deriveLoop (userGetByUsername users) base is cand = .ok cand := by
  cases is with
  | nil => simp [deriveLoop, userGetByUsername_free users cand h, errIs, wrapErr]
  | cons i rest =>
    simp [deriveLoop, userGetByUsername_free users cand h, errIs, wrapErr]

/-- A taken candidate advances the probing loop to the next suffixed
candidate. -/
theorem deriveLoop_cons_taken (users : List User) (base : String) (i : Nat)
    (rest : List Nat) (cand : String) (u : User)
    (hu : userGetByUsername users cand = .ok u) :
    deriveLoop (userGetByUsername users) base (i :: rest) cand =
      deriveLoop (userGetByUsername users) base rest (base ++ toString i) := by
  simp [deriveLoop, hu]

/-- When the current candidate and every remaining suffixed candidate are
taken, the probing loop ends in the Conflict failure. -/
theorem deriveLoop_all_taken (users : List User) (base : String) :
    ∀ (is : List Nat) (cand : String),
      nameTaken users cand = true →
      (∀ i ∈ is, nameTaken users (base ++ toString i) = true) →
      deriveLoop (userGetByUsername users) base is cand =
        .error (wrapErr
          ("unable to derive unique username from \"" ++ base ++ "\"")
          .conflict) := by
  intro is
  induction is with
  | nil =>
    intro cand hc _
    obtain ⟨u, hu⟩ := userGetByUsername_taken users cand hc
    simp [deriveLoop, hu]
  | cons i rest ih =>
    intro cand hc hall
    obtain ⟨u, hu⟩ := userGetByUsername_taken users cand hc
    simp only [deriveLoop, hu]
    exact ih (base ++ toString i) (hall i (List.mem_cons_self i rest))
      (fun j hj => hall j (List.mem_cons_of_mem i hj))

/-- Claim C7: username derivation keeps only letters, digits, dot,
underscore and hyphen of the lowercased email local-part; falls back to the
literal "user" when stripping empties the string; with exactly one
pre-existing collision on the base name the result is base ++ "1"; and when
the base and all 99 suffixed candidates are taken, derivation fails with
Conflict. -/
theorem derive_username_spec (users : List User) (email : String) :
    (∀ c ∈ (usernameBase email).data,
      (c.isAlpha || c.isDigit || c = '.' || c = '_' || c = '-') = true ∧
      c.isUpper = false) ∧
    (sanitizeUsername (emailLocalPart email) = "" →
      usernameBase email = "user") ∧
    (nameTaken users (usernameBase email) = true →
      nameTaken users (usernameBase email ++ "1") = false →
      deriveUsername (userGetByUsername users) email =
        .ok (usernameBase email ++ "1")) ∧
    ((∀ n ∈ usernameCandidates email, nameTaken users n = true) →
      deriveUsername (userGetByUsername users) email =
        .error (wrapErr
          ("unable to derive unique username from \"" ++
            usernameBase email ++ "\"") .conflict) ∧
      errIs (wrapErr
        ("unable to derive unique username from \"" ++
          usernameBase email ++ "\"") .conflict) .conflict = true) := by
  refine ⟨?_, ?_, ?_, ?_⟩
  · intro c hc
    unfold usernameBase at hc
    by_cases hb : sanitizeUsername (emailLocalPart email) = ""
    · rw [if_pos hb] at hc
      have hc' : c ∈ ['u', 's', 'e', 'r'] := hc
      fin_cases hc' <;> exact ⟨by decide, by decide⟩
    · rw [if_neg hb] at hc
      unfold sanitizeUsername at hc
      have hc' : c ∈ (goToLower (emailLocalPart email)).data.filter
          (fun c => c.isAlpha || c.isDigit || c = '.' || c = '_' || c = '-') :=
        hc
      constructor
      · have := List.of_mem_filter hc'
        simpa using this
      · have hmem := List.mem_of_mem_filter hc'
        unfold goToLower at hmem
        have hmem' : c ∈ (emailLocalPart email).data.map Char.toLower :=
          hmem
        rw [List.mem_map] at hmem'
        obtain ⟨c0, _, rfl⟩ := hmem'
        exact toLower_not_upper c0
  · intro hb
    unfold usernameBase
    rw [if_pos hb]
  · intro htaken hfree
    unfold deriveUsername
    obtain ⟨u, hu⟩ := userGetByUsername_taken users (usernameBase email) htaken
    have hrange : List.range' 1 99 = 1 :: List.range' 2 98 := rfl
    rw [hrange, deriveLoop_cons_taken users _ 1 _ _ u hu]
    have h1 : (toString 1 : String) = "1" := rfl
    rw [h1]
    exact deriveLoop_free users (usernameBase email) (List.range' 2 98)
      (usernameBase email ++ "1") hfree
  · intro hall
    refine ⟨?_, rfl⟩
    unfold deriveUsername
    refine deriveLoop_all_taken users (usernameBase email) (List.range' 1 99)
      (usernameBase email) ?_ ?_
    · exact hall (usernameBase email) (List.mem_cons_self _ _)
    · intro i hi
      refine hall (usernameBase email ++ toString i) ?_
      unfold usernameCandidates
      exact List.mem_cons_of_mem _ (List.mem_map_of_mem _ hi)

/-- Witness for C7: with "alice" taken and "alice1" free, deriving from
"alice@gmail.com" yields "alice1". -/
theorem derive_username_spec_witness :
    deriveUsername (userGetByUsername [userU1]) "alice@gmail.com" =
      .ok (usernameBase "alice@gmail.com" ++ "1") ∧
    usernameBase "alice@gmail.com" ++ "1" = "alice1" := by
  refine ⟨(derive_username_spec [userU1] "alice@gmail.com").2.2.1 ?_ ?_, ?_⟩
  · decide
  · decide
  · decide

end GoApi
